import Mathlib

/-!
Verification development for the Realism2 repository.

Part 1 embeds the React client code present under the repository's
frontend sources (api.js, vite.config.js, UploadPanel, UploadPage,
ResultPage/handleDownload, ResultPanel) as pure Lean functions.

Part 2 models the backend image-realism pipeline.  The backend
implementation (FastAPI app under `app/`) is not part of this source
snapshot; only its README and the specification describe it.  Those
definitions are therefore modelled from the spec, each marked as such
in its doc comment.
-/

/- ===================== Part 1: frontend embedding ===================== -/

/-- Outcome of the browser `fetch` call issued by `trackEvent` in
src/frontend/src/api.js: either an HTTP response with a status code
(any status resolves the promise) or a network-level rejection. -/
inductive FetchOutcome
  | ok (status : Nat)
  | networkError (msg : String)
deriving DecidableEq

/-- The raw promise of `fetch('/track', ...)`: a network error rejects,
any HTTP response resolves. -/
def fetchTrack (outcome : FetchOutcome) : Except String Nat :=
  match outcome with
  | .ok s => .ok s
  | .networkError m => .error m

/-- The `.catch(() => \x7b\x7d)` handler attached in `trackEvent`:
every rejection is swallowed and mapped to a unit value. -/
def catchHandler (r : Except String Nat) : Except String Unit :=
  match r with
  | .ok _ => .ok ()
  | .error _ => .ok ()

/-- `trackEvent` from src/frontend/src/api.js: fires the tracking fetch
and attaches the swallowing catch handler; the caller never observes a
rejection. -/
def trackEvent (outcome : FetchOutcome) : Except String Unit :=
  catchHandler (fetchTrack outcome)

/-- The URL path `postEnhance` in src/frontend/src/api.js posts the
multipart form to. -/
def postEnhancePath : String := "/enhance"

/-- The dev-server proxy route keys of src/frontend/vite.config.js,
each forwarded to the backend at localhost:8000. -/
def viteProxyPaths : List String := ["/enhance", "/upload", "/track", "/health"]

/-- A file as seen by the upload handlers: its MIME type (`f.type`),
name and size. -/
structure FileModel where
  ftype : String
  name : String
  size : Nat
deriving DecidableEq

/-- JavaScript `String.prototype.startsWith`, as used on MIME types by
the upload handlers: character-prefix comparison. -/
def jsStartsWith (s pre : String) : Bool :=
  List.isPrefixOf pre.data s.data

/-- The `onChange` handler of UploadPanel's hidden file input: returns
the list of telemetry events fired and the `onFile` invocation, if any.
A missing file returns early with no event; a present file fires
`upload_click`, then a non-image MIME type returns before the reader
ever invokes `onFile`. -/
def uploadOnChange (f? : Option FileModel) : List String × Option FileModel :=
  match f? with
  | none => ([], none)
  | some f =>
    if jsStartsWith f.ftype "image/" then (["upload_click"], some f)
    else (["upload_click"], none)

/-- The `onDrop` handler of UploadPanel's drop area: fires
`upload_click` unconditionally, then only a leading file with an
image MIME type reaches `onFile`. -/
def uploadOnDrop (files : List FileModel) : List String × Option FileModel :=
  match files with
  | [] => (["upload_click"], none)
  | f :: _ =>
    if jsStartsWith f.ftype "image/" then (["upload_click"], some f)
    else (["upload_click"], none)

/-- The state UploadPage keeps about the selected file: `imageFile` and
`imagePreview` (the data URL produced by the FileReader, modelled as a
string derived from the file). -/
structure UploadPageState where
  imageFile : Option FileModel
  imagePreview : Option String
deriving DecidableEq

/-- Applying a file-input change to UploadPage's state: only when the
handler invokes `onFile` does `handleFile` store the file and its
preview; otherwise the state is untouched. -/
def applyUploadChange (st : UploadPageState) (f? : Option FileModel) : UploadPageState :=
  match (uploadOnChange f?).2 with
  | none => st
  | some f => { imageFile := some f, imagePreview := some ("dataurl:" ++ f.name) }

/-- The client flow state mutated by UploadPage's `handleGenerate`:
loading flag, error message, navigation target, the result stored in
sessionStorage, whether the enhance request was issued, and the log of
telemetry calls with the value each `trackEvent` yielded. -/
structure FlowState where
  loading : Bool
  errorMsg : Option String
  navigatedTo : Option String
  storedResult : Option String
  enhanceRequested : Bool
  telemetry : List (String × Except String Unit)

/-- `handleGenerate` from UploadPage: with no file selected it only sets
an error; otherwise it clears the error, sets loading, fires
`generate_click`, issues the enhance request, and on success stores the
result and navigates to /result, on failure records the error; loading
is cleared in the `finally` block.  The outcome of every tracking call
is threaded in as `tOut` and its post-catch value logged. -/
def handleGenerate (imageFile : Option FileModel) (enhance : Except String String)
    (tOut : FetchOutcome) (s0 : FlowState) : FlowState :=
  match imageFile with
  | none => { s0 with errorMsg := some "please upload an image first" }
  | some _ =>
    let s1 : FlowState :=
      { s0 with errorMsg := none, loading := true, enhanceRequested := true,
                telemetry := s0.telemetry ++ [("generate_click", trackEvent tOut)] }
    match enhance with
    | .ok res =>
      let s2 : FlowState :=
        { s1 with telemetry := s1.telemetry ++ [("generate_success", trackEvent tOut)],
                  storedResult := some res, navigatedTo := some "/result" }
      { s2 with loading := false }
    | .error m =>
      let s2 : FlowState :=
        { s1 with errorMsg := some m,
                  telemetry := s1.telemetry ++ [("generate_error", trackEvent tOut)] }
      { s2 with loading := false }

/-- The `enhancement_result` object of the client-side result payload:
the base64 image may be absent, and the `success` field may be absent
(`none`), `true` or `false`. -/
structure EnhancementResult where
  enhanced_image_base64 : Option String
  success : Option Bool
deriving DecidableEq

/-- The result object ResultPage reads from sessionStorage, as consumed
by `handleDownload` and ResultPanel. -/
structure ResultModel where
  enhancement_result : Option EnhancementResult
deriving DecidableEq

/-- JavaScript truthiness of
`result?.enhancement_result?.enhanced_image_base64`: false when any
link of the optional chain is absent or the string is empty. -/
def enhancedTruthy (r : Option ResultModel) : Bool :=
  match r with
  | none => false
  | some rm =>
    match rm.enhancement_result with
    | none => false
    | some er =>
      match er.enhanced_image_base64 with
      | none => false
      | some s => !(s == "")

/-- The value of `result?.enhancement_result?.success`. -/
def successField (r : Option ResultModel) : Option Bool :=
  match r with
  | none => none
  | some rm =>
    match rm.enhancement_result with
    | none => none
    | some er => er.success

/-- DOM actions `handleDownload` can perform on the download link. -/
inductive DomAction
  | createLink
  | clickLink
  | removeLink
deriving DecidableEq

/-- `handleDownload` from ResultPage: guards on the truthiness of the
enhanced image and only then creates, clicks and removes the anchor. -/
def handleDownload (r : Option ResultModel) : List DomAction :=
  if enhancedTruthy r then [.createLink, .clickLink, .removeLink] else []

/-- The `disabled` expression of ResultPanel's download button:
`!enhanced || success === false`. -/
def downloadDisabled (r : Option ResultModel) : Bool :=
  !(enhancedTruthy r) || (successField r == some false)

/- ============ Part 2: backend pipeline (modelled from the spec) ============ -/

/-- Modelled from the spec: job lifecycle states of the Pipeline
Orchestrator state machine (backend code absent from this snapshot). -/
inductive JobStatus
  | pending
  | processing
  | completed
  | failed
deriving DecidableEq

/-- Modelled from the spec: severity grades of a FakeSignal. -/
inductive Severity
  | low
  | medium
  | high
deriving DecidableEq

/-- Modelled from the spec: one suspected AI artifact produced by the
Fake Signal Detector. -/
structure FakeSignal where
  signal : String
  severity : Severity
deriving DecidableEq

/-- Modelled from the spec: the Scene Classifier's output.  The
AI-likelihood float in [0,1] is carried in thousandths. -/
structure SceneClassification where
  primary_scene : String
  secondary_attributes : List String
  ai_likelihood_milli : Nat
deriving DecidableEq

/-- Modelled from the spec: scene rules and avoid-patterns returned by
the Knowledge Retriever. -/
structure RealismConstraints where
  scene_rules : List String
  avoid_patterns : List String
deriving DecidableEq

/-- Modelled from the spec: one enhancement operation of a Strategy. -/
structure Operation where
  module : String
  action : String
  strength : String
  locality : String
deriving DecidableEq

/-- Modelled from the spec: the Strategy Generator's output. -/
structure Strategy where
  goal : String
  priority : String
  operations : List Operation
  constraints : List String
deriving DecidableEq

/-- Modelled from the spec: one per-module instruction of an
ExecutionPlan. -/
structure Instruction where
  action : String
  parameters : List (String × String)
  target_region : String
deriving DecidableEq

/-- Modelled from the spec: the ExecutionPlan maps each of the three
known modules to its ordered instruction list; a module with no
operations holds an empty list, never an absent entry. -/
structure ExecutionPlan where
  lighting_module : List Instruction
  texture_module : List Instruction
  noise_module : List Instruction
deriving DecidableEq

/-- Modelled from the spec: the Realism Scorer's output, floats in
[0,1] carried in thousandths. -/
structure RealismScore where
  before_milli : Nat
  after_milli : Nat
  confidence_milli : Nat
  notes : String
deriving DecidableEq

/-- Modelled from the spec: per-stage degraded flags recorded in the
PipelineResult. -/
structure StageFlags where
  classifierDegraded : Bool
  detectorDegraded : Bool
  retrieverDegraded : Bool
  strategyDegraded : Bool
  plannerDegraded : Bool
  scorerDegraded : Bool
deriving DecidableEq

/-- Modelled from the spec: the aggregate result of one job's pipeline
run, with per-stage degraded flags. -/
structure PipelineResult where
  scene_classification : SceneClassification
  fake_signals : List FakeSignal
  realism_constraints : RealismConstraints
  strategy : Strategy
  execution_plan : ExecutionPlan
  realism_score : RealismScore
  flags : StageFlags
deriving DecidableEq

/-- Modelled from the spec: the generic fallback entry the Knowledge
Retriever returns for a scene type absent from the knowledge base. -/
def fallbackConstraints : RealismConstraints :=
  { scene_rules := ["prefer subtle, physically plausible detail",
                    "preserve the original composition and intent"],
    avoid_patterns := ["uniform noise-free surfaces",
                       "perfectly symmetric structures"] }

/-- Modelled from the spec: the static keyed knowledge base
(scene_type to rules/avoid-patterns), loaded once at process start. -/
def knowledgeBase : List (String × RealismConstraints) :=
  [("portrait",
    { scene_rules := ["skin should have subtle texture variations",
                      "lighting should show natural falloff"],
      avoid_patterns := ["perfectly smooth skin without pores"] }),
   ("landscape",
    { scene_rules := ["foliage should vary in tone and density",
                      "atmospheric haze increases with distance"],
      avoid_patterns := ["repeating texture tiles"] }),
   ("indoor",
    { scene_rules := ["surfaces should show wear and dust",
                      "mixed light temperatures are natural"],
      avoid_patterns := ["showroom-clean uniform surfaces"] })]

/-- Modelled from the spec: the Knowledge Retriever's pure lookup;
an unknown scene_type resolves to the generic fallback entry, never an
error. -/
def retrieve (scene_type : String) : RealismConstraints :=
  match knowledgeBase.find? (fun p => p.1 == scene_type) with
  | some p => p.2
  | none => fallbackConstraints

/-- Modelled from the spec: the minimal safe-default Strategy emitted
when the Strategy Generator's call and its one repair retry both fail. -/
def defaultStrategy : Strategy :=
  { goal := "maintain realism",
    priority := "low",
    operations := [],
    constraints := ["preserve facial identity", "maintain overall composition"] }

/-- Modelled from the spec: enum membership check for an operation's
module. -/
def validModule (m : String) : Bool :=
  m == "lighting" || m == "texture" || m == "noise"

/-- Modelled from the spec: enum membership check for a Strategy's
priority. -/
def validPriority (p : String) : Bool :=
  p == "low" || p == "medium" || p == "high"

/-- Modelled from the spec: enum membership check for an operation's
locality. -/
def validLocality (l : String) : Bool :=
  l == "local" || l == "global"

/-- Modelled from the spec: schema validation of a parsed Strategy:
required enum membership for priority and every operation's module and
locality. -/
def validStrategy (s : Strategy) : Bool :=
  validPriority s.priority &&
    s.operations.all (fun o => validModule o.module && validLocality o.locality)

/-- Modelled from the spec: one external Strategy Generator call:
`none` is unparsable output, and parsed output must pass schema
validation to be accepted. -/
def acceptStrategy (call : Option Strategy) : Option Strategy :=
  match call with
  | some s => if validStrategy s then some s else none
  | none => none

/-- Modelled from the spec: the Strategy Generator stage: accept the
first call if schema-valid, otherwise the one repair retry, otherwise
emit the safe default and mark the stage degraded (second component). -/
def generateStrategy (call1 call2 : Option Strategy) : Strategy × Bool :=
  match acceptStrategy call1 with
  | some s => (s, false)
  | none =>
    match acceptStrategy call2 with
    | some s => (s, false)
    | none => (defaultStrategy, true)

/-- Modelled from the spec: the Execution Planner's target-region
inference: `auto_detect` unless the action text names a specific region
by keyword (the spec's example: "skin" hints the face region). -/
def targetRegion (action : String) : String :=
  if (action.splitOn " ").contains "skin" then "face" else "auto_detect"

/-- Modelled from the spec: transform of one operation into a module
instruction carrying the action, its strength/locality parameters and
the inferred target region. -/
def planInstruction (op : Operation) : Instruction :=
  { action := op.action,
    parameters := [("strength", op.strength), ("locality", op.locality)],
    target_region := targetRegion op.action }

/-- Modelled from the spec: the Execution Planner: a pure function
grouping Strategy operations by module in original order; a module with
no operations yields an empty list. -/
def plan (s : Strategy) : ExecutionPlan :=
  { lighting_module := (s.operations.filter (fun o => o.module == "lighting")).map planInstruction,
    texture_module := (s.operations.filter (fun o => o.module == "texture")).map planInstruction,
    noise_module := (s.operations.filter (fun o => o.module == "noise")).map planInstruction }

/-- Modelled from the spec: the Scene Classifier stage: accept the
first parsable call, otherwise the one stricter-instruction retry,
otherwise the default classification with the stage marked degraded. -/
def runSceneClassifier (call1 call2 : Option SceneClassification) :
    SceneClassification × Bool :=
  match call1 with
  | some c => (c, false)
  | none =>
    match call2 with
    | some c => (c, false)
    | none =>
      ({ primary_scene := "unknown", secondary_attributes := [],
         ai_likelihood_milli := 500 }, true)

/-- Modelled from the spec: the Fake Signal Detector stage: a bounded
list (cap 10) in detection order; zero signals is valid, and a failed
call degrades to the empty list without blocking the pipeline. -/
def runDetector (call : Option (List FakeSignal)) : List FakeSignal × Bool :=
  match call with
  | some l => (l.take 10, false)
  | none => ([], true)

/-- Modelled from the spec: clamp of a thousandths-scaled score to
[0,1]. -/
def clamp1000 (n : Nat) : Nat := min n 1000

/-- Modelled from the spec: the Realism Scorer's heuristic fallback,
derived from ai_likelihood and the operation count, with low
confidence. -/
def heuristicScore (cls : SceneClassification) (strat : Strategy) : RealismScore :=
  let before := 1000 - cls.ai_likelihood_milli
  { before_milli := before,
    after_milli := clamp1000 (before + 100 * strat.operations.length),
    confidence_milli := 300,
    notes := "heuristic fallback estimate" }

/-- Modelled from the spec: the Realism Scorer stage: the external
scoring call's output is preserved exactly as produced; on failure the
heuristic fallback is used and the stage marked degraded. -/
def runScorer (call : Option RealismScore) (cls : SceneClassification)
    (strat : Strategy) : RealismScore × Bool :=
  match call with
  | some sc => (sc, false)
  | none => (heuristicScore cls strat, true)

/-- Modelled from the spec: the external-call outcomes one pipeline run
consumes: the classifier call and its retry, the detector call, the
Strategy Generator call and its repair retry (`none` is unparsable
output), the scorer call, and `fatal`, which is `some` exactly when an
unrecoverable error (service unreachable after retries, corrupt image)
interrupts the run. -/
structure ExternalCalls where
  classify1 : Option SceneClassification
  classify2 : Option SceneClassification
  detect : Option (List FakeSignal)
  strategy1 : Option Strategy
  strategy2 : Option Strategy
  score : Option RealismScore
  fatal : Option String
deriving DecidableEq

/-- Modelled from the spec: one full pipeline run over the six stages
in fixed order.  A degraded stage counts as success; only an
unrecoverable error drives the run to `failed` with an error detail and
no result.  Otherwise the run completes with the full PipelineResult
and per-stage degraded flags. -/
def runPipeline (ext : ExternalCalls) :
    JobStatus × Option PipelineResult × Option String :=
  match ext.fatal with
  | some e => (.failed, none, some e)
  | none =>
    let cls := runSceneClassifier ext.classify1 ext.classify2
    let sigs := runDetector ext.detect
    let cons := retrieve cls.1.primary_scene
    let strat := generateStrategy ext.strategy1 ext.strategy2
    let eplan := plan strat.1
    let score := runScorer ext.score cls.1 strat.1
    (.completed,
     some { scene_classification := cls.1,
            fake_signals := sigs.1,
            realism_constraints := cons,
            strategy := strat.1,
            execution_plan := eplan,
            realism_score := score.1,
            flags := { classifierDegraded := cls.2,
                       detectorDegraded := sigs.2,
                       retrieverDegraded := false,
                       strategyDegraded := strat.2,
                       plannerDegraded := false,
                       scorerDegraded := score.2 } },
     none)

/-- Modelled from the spec: a stored Job record: status, upload
metadata, optional result payload, optional error detail. -/
structure Job where
  status : JobStatus
  image_size : Nat
  content_type : String
  result? : Option PipelineResult
  error? : Option String
deriving DecidableEq

/-- Modelled from the spec: opaque job identifiers. -/
abbrev JobId := Nat

/-- Modelled from the spec: the Job Store's durable mapping from job
identifier to Job record. -/
abbrev JobStore := JobId → Option Job

/-- Modelled from the spec: the store holding no jobs. -/
def emptyStore : JobStore := fun _ => none

/-- Modelled from the spec: Job Store read. -/
def getJob (st : JobStore) (id : JobId) : Option Job := st id

/-- Modelled from the spec: Job Store write of one job record. -/
def setJob (st : JobStore) (id : JobId) (j : Job) : JobStore :=
  fun k => if k = id then some j else st k

/-- Modelled from the spec: Job Store and API error taxonomy entries
relevant to job access. -/
inductive StoreError
  | NotFound
  | InvalidState
deriving DecidableEq

/-- Modelled from the spec: whether a status is terminal. -/
def terminalStatus : JobStatus → Bool
  | .completed => true
  | .failed => true
  | _ => false

/-- Modelled from the spec: `update_status` of the Job Store: NotFound
for an unknown id, InvalidState when a terminal job is updated again
(the store is left untouched), otherwise the record is rewritten. -/
def update_status (st : JobStore) (id : JobId) (ns : JobStatus)
    (res : Option PipelineResult) (err : Option String) :
    Except StoreError JobStore :=
  match getJob st id with
  | none => .error .NotFound
  | some j =>
    if terminalStatus j.status then .error .InvalidState
    else .ok (setJob st id { j with status := ns, result? := res, error? := err })

/-- Modelled from the spec: the POST /process/\x7bjob_id\x7d handler.
An unknown id is NotFound.  A job already `processing` or terminal is a
no-op returning the current status.  A `pending` job transitions to
`processing` and the Orchestrator (the sole writer) drives the run to
its terminal status with result or error recorded. -/
def processJob (st : JobStore) (id : JobId) (ext : ExternalCalls) :
    JobStore × Except StoreError (JobId × JobStatus) :=
  match getJob st id with
  | none => (st, .error .NotFound)
  | some j =>
    if j.status = .pending then
      let step := runPipeline ext
      let st1 := setJob st id { j with status := .processing }
      let st2 := setJob st1 id
        { j with status := step.1, result? := step.2.1, error? := step.2.2 }
      (st2, .ok (id, step.1))
    else (st, .ok (id, j.status))

/-- Modelled from the spec: the configured maximum upload size in
bytes (MAX_IMAGE_SIZE of the README's .env example). -/
def maxImageSize : Nat := 10485760

/-- Modelled from the spec: upload validation: a positive size within
the configured maximum and an image content type. -/
def validUpload (size : Nat) (ctype : String) : Bool :=
  0 < size && size ≤ maxImageSize && jsStartsWith ctype "image/"

/-- Modelled from the spec: the upload error taxonomy entry: a bad
upload surfaces immediately and no job is created. -/
inductive UploadError
  | ValidationError (msg : String)
deriving DecidableEq

/-- Modelled from the spec: the POST /upload handler: validation runs
before job creation; on failure the store is unchanged and a
ValidationError surfaces; on success a `pending` job is stored under
the fresh id. -/
def uploadEndpoint (st : JobStore) (nid : JobId) (size : Nat) (ctype : String) :
    JobStore × Except UploadError JobId :=
  if validUpload size ctype then
    (setJob st nid { status := .pending, image_size := size, content_type := ctype,
                     result? := none, error? := none }, .ok nid)
  else (st, .error (.ValidationError "invalid upload"))

/-- Modelled from the spec: the GET /result/\x7bjob_id\x7d handler:
NotFound for an unknown id, otherwise the current status with the
result payload when present. -/
def getResult (st : JobStore) (id : JobId) :
    Except StoreError (JobId × JobStatus × Option PipelineResult) :=
  match getJob st id with
  | none => .error .NotFound
  | some j => .ok (id, j.status, j.result?)

/-- Modelled from the spec: the POST /analyze handler: synchronous
upload + process + result in one call, returning the full
PipelineResult. -/
def analyzeEndpoint (st : JobStore) (nid : JobId) (size : Nat) (ctype : String)
    (ext : ExternalCalls) : JobStore × Except UploadError (Option PipelineResult) :=
  match uploadEndpoint st nid size ctype with
  | (st1, .error e) => (st1, .error e)
  | (st1, .ok id) =>
    let st2 := (processJob st1 id ext).1
    match getJob st2 id with
    | some j => (st2, .ok j.result?)
    | none => (st2, .ok none)

/-- Modelled from the spec: the POST /track handler: fire-and-forget
telemetry acknowledged with 202; it reads and writes no pipeline or job
state, so the store passes through unchanged. -/
def trackEndpoint (st : JobStore) (_event : String) : JobStore × Nat :=
  (st, 202)

/- ===================== Concrete inputs for witnesses ===================== -/

/-- A pipeline run whose external calls all fail recoverably and which
hits no unrecoverable error. -/
def extNoFatal : ExternalCalls :=
  { classify1 := none, classify2 := none, detect := none,
    strategy1 := none, strategy2 := none, score := none, fatal := none }

/-- A parsed Strategy that violates the schema: its priority is outside
the low/medium/high enum. -/
def invalidStrategy : Strategy :=
  { goal := "boost", priority := "urgent", operations := [], constraints := [] }

/-- External calls whose Strategy Generator call parses but fails
schema validation and whose repair retry is unparsable. -/
def extStrategyFail : ExternalCalls :=
  { extNoFatal with strategy1 := some invalidStrategy, strategy2 := none }

/-- A sample Strategy with one texture operation. -/
def sampleStrategy : Strategy :=
  { goal := "reduce synthetic skin appearance",
    priority := "low",
    operations := [{ module := "texture", action := "add subtle skin pore detail",
                     strength := "low", locality := "local" }],
    constraints := ["preserve facial identity"] }

/-- A job record currently being processed. -/
def procJob1 : Job :=
  { status := .processing, image_size := 5, content_type := "image/png",
    result? := none, error? := none }

/-- A store holding the processing job under id 1. -/
def procStore : JobStore := setJob emptyStore 1 procJob1

/-- A completed job record. -/
def termJob : Job :=
  { status := .completed, image_size := 7, content_type := "image/png",
    result? := none, error? := none }

/-- A store holding the completed job under id 2. -/
def termStore : JobStore := setJob emptyStore 2 termJob

/-- A non-image file offered to the upload panel. -/
def nonImageFile : FileModel :=
  { ftype := "application/pdf", name := "doc.pdf", size := 123 }

/-- The flow state before any interaction. -/
def emptyFlowState : FlowState :=
  { loading := false, errorMsg := none, navigatedTo := none,
    storedResult := none, enhanceRequested := false, telemetry := [] }

/-- A result payload whose enhancement reported failure although an
image string is present. -/
def failedResult : ResultModel :=
  { enhancement_result := some { enhanced_image_base64 := some "abc",
                                 success := some false } }

/- ===================== Theorems ===================== -/

/-- C2: every tracking call returns normally regardless of its fetch
outcome, the enclosing enhance flow produces an identical state whether
the tracking request succeeds or fails, and the track endpoint leaves
pipeline state untouched. -/
theorem track_failure_never_affects_flow (o₁ o₂ : FetchOutcome)
    (f : Option FileModel) (e : Except String String) (s : FlowState)
    (st : JobStore) (ev : String) :
    trackEvent o₁ = Except.ok () ∧
    handleGenerate f e o₁ s = handleGenerate f e o₂ s ∧
    trackEndpoint st ev = (st, 202) := by
  refine ⟨?_, ?_, rfl⟩
  · cases o₁ <;> rfl
  · cases o₁ <;> cases o₂ <;> cases f <;> cases e <;> rfl

/-- C4: the Execution Planner is deterministic: two invocations of
`plan` on the same Strategy yield identical ExecutionPlan structures. -/
theorem plan_deterministic (s₁ s₂ : Strategy) (h : s₁ = s₂) :
    plan s₁ = plan s₂ := by
  rw [h]

/-- Witness for C4 at a concrete Strategy. -/
theorem plan_deterministic_witness :
    sampleStrategy = sampleStrategy ∧ plan sampleStrategy = plan sampleStrategy :=
  ⟨rfl, plan_deterministic sampleStrategy sampleStrategy rfl⟩

/-- C6: the Knowledge Retriever is total and never fails: every
scene_type yields non-empty rules and avoid-patterns, and a scene_type
absent from the knowledge base resolves to the generic fallback. -/
theorem retrieve_total (s u : String)
    (hu : knowledgeBase.find? (fun p => p.1 == u) = none) :
    (retrieve s).scene_rules ≠ [] ∧ (retrieve s).avoid_patterns ≠ [] ∧
    retrieve u = fallbackConstraints := by
  have hfall : retrieve u = fallbackConstraints := by
    unfold retrieve
    rw [hu]
  refine ⟨?_, ?_, hfall⟩ <;>
  · unfold retrieve
    cases h : knowledgeBase.find? (fun p => p.1 == s) with
    | none => simp [fallbackConstraints]
    | some p =>
      have hm : p ∈ knowledgeBase := List.mem_of_find?_eq_some h
      simp only [knowledgeBase, List.mem_cons, List.not_mem_nil, or_false] at hm
      rcases hm with rfl | rfl | rfl <;> simp

/-- Witness for C6 at a known and an unknown scene type. -/
theorem retrieve_total_witness :
    knowledgeBase.find? (fun p => p.1 == "underwater_macro") = none ∧
    ((retrieve "portrait").scene_rules ≠ [] ∧
     (retrieve "portrait").avoid_patterns ≠ [] ∧
     retrieve "underwater_macro" = fallbackConstraints) :=
  ⟨by decide, retrieve_total "portrait" "underwater_macro" (by decide)⟩

/-- C9: a file whose MIME type does not start with "image/" never
reaches the `onFile` callback from either upload handler, the upload
page state (file and preview) is unchanged, and starting from an empty
selection no enhance request can be issued for it. -/
theorem upload_rejects_non_image (f : FileModel) (st : UploadPageState)
    (e : Except String String) (o : FetchOutcome) (fs : FlowState)
    (h : jsStartsWith f.ftype "image/" = false)
    (hfs : fs.enhanceRequested = false) :
    (uploadOnChange (some f)).2 = none ∧
    (uploadOnDrop [f]).2 = none ∧
    applyUploadChange st (some f) = st ∧
    (handleGenerate
      (applyUploadChange { imageFile := none, imagePreview := none } (some f)).imageFile
      e o fs).enhanceRequested = false := by
  have h1 : (uploadOnChange (some f)).2 = none := by simp [uploadOnChange, h]
  have h2 : (uploadOnDrop [f]).2 = none := by simp [uploadOnDrop, h]
  have h3 : ∀ s : UploadPageState, applyUploadChange s (some f) = s := by
    intro s
    unfold applyUploadChange
    rw [h1]
  refine ⟨h1, h2, h3 st, ?_⟩
  rw [h3 { imageFile := none, imagePreview := none }]
  simp [handleGenerate, hfs]

/-- Witness for C9 at a PDF file. -/
theorem upload_rejects_non_image_witness :
    jsStartsWith nonImageFile.ftype "image/" = false ∧
    emptyFlowState.enhanceRequested = false ∧
    ((uploadOnChange (some nonImageFile)).2 = none ∧
     (uploadOnDrop [nonImageFile]).2 = none ∧
     applyUploadChange { imageFile := none, imagePreview := none } (some nonImageFile) =
       { imageFile := none, imagePreview := none } ∧
     (handleGenerate
       (applyUploadChange { imageFile := none, imagePreview := none }
         (some nonImageFile)).imageFile
       (Except.ok "res") (FetchOutcome.ok 200) emptyFlowState).enhanceRequested = false) :=
  ⟨by decide, rfl,
   upload_rejects_non_image nonImageFile { imageFile := none, imagePreview := none }
     (Except.ok "res") (FetchOutcome.ok 200) emptyFlowState (by decide) rfl⟩

/-- C10: when the enhanced image is absent (falsy), `handleDownload`
performs no DOM action and the download button is disabled; the button
is also disabled whenever the enhancement reported failure. -/
theorem download_guarded (r rfail : Option ResultModel)
    (habs : enhancedTruthy r = false)
    (hfail : successField rfail = some false) :
    handleDownload r = [] ∧
    downloadDisabled r = true ∧
    downloadDisabled rfail = true := by
  refine ⟨?_, ?_, ?_⟩
  · simp [handleDownload, habs]
  · simp [downloadDisabled, habs]
  · simp [downloadDisabled, hfail]

/-- Witness for C10 at an absent result and a failed enhancement. -/
theorem download_guarded_witness :
    enhancedTruthy none = false ∧
    successField (some failedResult) = some false ∧
    (handleDownload none = [] ∧
     downloadDisabled none = true ∧
     downloadDisabled (some failedResult) = true) :=
  ⟨rfl, rfl, download_guarded none (some failedResult) rfl rfl⟩

/-- C5: invoking the pipeline on a job that is already `processing` or
terminal is idempotent: the store is unchanged (no stage re-runs, no
state change) and the current status is returned. -/
theorem process_idempotent (st : JobStore) (id : JobId) (ext : ExternalCalls)
    (j : Job) (hget : getJob st id = some j)
    (hs : j.status = JobStatus.processing ∨ j.status = JobStatus.completed ∨
          j.status = JobStatus.failed) :
    processJob st id ext = (st, Except.ok (id, j.status)) := by
  have hne : ¬ j.status = JobStatus.pending := by
    rcases hs with h | h | h <;> simp [h]
  simp [processJob, hget, hne]

/-- Witness for C5 at a store holding a processing job. -/
theorem process_idempotent_witness :
    getJob procStore 1 = some procJob1 ∧
    (procJob1.status = JobStatus.processing ∨ procJob1.status = JobStatus.completed ∨
     procJob1.status = JobStatus.failed) ∧
    processJob procStore 1 extNoFatal = (procStore, Except.ok (1, procJob1.status)) :=
  ⟨rfl, Or.inl rfl,
   process_idempotent procStore 1 extNoFatal procJob1 rfl (Or.inl rfl)⟩

/-- C7: a terminal job is immutable: `update_status` on it yields
InvalidState and leaves the store untouched, and the orchestrator's
process entry point is a no-op returning the current status, with the
record's fields unchanged afterwards. -/
theorem terminal_job_immutable (st : JobStore) (id : JobId) (ext : ExternalCalls)
    (ns : JobStatus) (res : Option PipelineResult) (err : Option String)
    (j : Job) (hget : getJob st id = some j)
    (hterm : j.status = JobStatus.completed ∨ j.status = JobStatus.failed) :
    update_status st id ns res err = Except.error StoreError.InvalidState ∧
    processJob st id ext = (st, Except.ok (id, j.status)) ∧
    getJob (processJob st id ext).1 id = some j := by
  have ht : terminalStatus j.status = true := by
    rcases hterm with h | h <;> rw [h] <;> rfl
  have hne : ¬ j.status = JobStatus.pending := by
    rcases hterm with h | h <;> simp [h]
  have hp : processJob st id ext = (st, Except.ok (id, j.status)) := by
    simp [processJob, hget, hne]
  refine ⟨?_, hp, ?_⟩
  · simp [update_status, hget, ht]
  · rw [hp]
    exact hget

/-- Witness for C7 at a store holding a completed job. -/
theorem terminal_job_immutable_witness :
    getJob termStore 2 = some termJob ∧
    (termJob.status = JobStatus.completed ∨ termJob.status = JobStatus.failed) ∧
    (update_status termStore 2 JobStatus.processing none none =
       Except.error StoreError.InvalidState ∧
     processJob termStore 2 extNoFatal = (termStore, Except.ok (2, termJob.status)) ∧
     getJob (processJob termStore 2 extNoFatal).1 2 = some termJob) :=
  ⟨rfl, Or.inl rfl,
   terminal_job_immutable termStore 2 extNoFatal JobStatus.processing none none
     termJob rfl (Or.inl rfl)⟩

/-- C3: when the Strategy Generator's call and its repair retry both
yield schema-invalid output, the run still completes with no error
detail, the emitted Strategy is the safe default (goal "maintain
realism", priority "low", no operations, the two identity/composition
constraints) and the strategy stage is flagged degraded. -/
theorem strategy_double_failure_completes (ext : ExternalCalls)
    (hfatal : ext.fatal = none)
    (h1 : acceptStrategy ext.strategy1 = none)
    (h2 : acceptStrategy ext.strategy2 = none) :
    (runPipeline ext).1 = JobStatus.completed ∧
    (runPipeline ext).2.2 = none ∧
    (runPipeline ext).2.1.map (fun r => r.strategy) = some defaultStrategy ∧
    (runPipeline ext).2.1.map (fun r => r.flags.strategyDegraded) = some true ∧
    defaultStrategy.goal = "maintain realism" ∧
    defaultStrategy.priority = "low" ∧
    defaultStrategy.operations = [] ∧
    defaultStrategy.constraints =
      ["preserve facial identity", "maintain overall composition"] := by
  have hg : generateStrategy ext.strategy1 ext.strategy2 = (defaultStrategy, true) := by
    simp [generateStrategy, h1, h2]
  refine ⟨?_, ?_, ?_, ?_, rfl, rfl, rfl, rfl⟩ <;>
    simp [runPipeline, hfatal, hg]

/-- Witness for C3 at external calls whose first strategy call parses
but violates the schema and whose repair retry is unparsable. -/
theorem strategy_double_failure_completes_witness :
    extStrategyFail.fatal = none ∧
    acceptStrategy extStrategyFail.strategy1 = none ∧
    acceptStrategy extStrategyFail.strategy2 = none ∧
    ((runPipeline extStrategyFail).1 = JobStatus.completed ∧
     (runPipeline extStrategyFail).2.2 = none ∧
     (runPipeline extStrategyFail).2.1.map (fun r => r.strategy) = some defaultStrategy ∧
     (runPipeline extStrategyFail).2.1.map (fun r => r.flags.strategyDegraded) = some true ∧
     defaultStrategy.goal = "maintain realism" ∧
     defaultStrategy.priority = "low" ∧
     defaultStrategy.operations = [] ∧
     defaultStrategy.constraints =
       ["preserve facial identity", "maintain overall composition"]) :=
  ⟨rfl, by decide, rfl,
   strategy_double_failure_completes extStrategyFail rfl (by decide) rfl⟩

/-- C1 counterexample: the React client's single-call enhance request
does not go through POST /analyze: `postEnhance` posts to /enhance, and
/analyze is not among the dev-server's proxied routes. -/
theorem client_does_not_use_analyze :
    postEnhancePath ≠ "/analyze" ∧ viteProxyPaths.contains "/analyze" = false := by
  constructor
  · decide
  · decide

/-- C1 amended: POST /analyze performs synchronous upload + process and
returns the full PipelineResult (backend modelled from the spec), but
the React client's single-call enhance request posts to /enhance — a
route the dev server proxies to the backend — not to /analyze. -/
theorem analyze_synchronous_client_uses_enhance
    (st : JobStore) (nid : JobId) (size : Nat) (ctype : String) (ext : ExternalCalls)
    (hv : validUpload size ctype = true) (hf : ext.fatal = none) :
    postEnhancePath = "/enhance" ∧
    viteProxyPaths.contains postEnhancePath = true ∧
    (analyzeEndpoint st nid size ctype ext).2 = Except.ok ((runPipeline ext).2.1) ∧
    ((runPipeline ext).2.1).isSome = true ∧
    (runPipeline ext).1 = JobStatus.completed := by
  refine ⟨rfl, by decide, ?_, ?_, ?_⟩
  · simp [analyzeEndpoint, uploadEndpoint, hv, processJob, getJob, setJob]
  · simp [runPipeline, hf]
  · simp [runPipeline, hf]

/-- Witness for the amended C1 at a fresh store and a small PNG
upload. -/
theorem analyze_synchronous_client_uses_enhance_witness :
    validUpload 5 "image/png" = true ∧
    extNoFatal.fatal = none ∧
    (postEnhancePath = "/enhance" ∧
     viteProxyPaths.contains postEnhancePath = true ∧
     (analyzeEndpoint emptyStore 0 5 "image/png" extNoFatal).2 =
       Except.ok ((runPipeline extNoFatal).2.1) ∧
     ((runPipeline extNoFatal).2.1).isSome = true ∧
     (runPipeline extNoFatal).1 = JobStatus.completed) :=
  ⟨by decide, rfl,
   analyze_synchronous_client_uses_enhance emptyStore 0 5 "image/png" extNoFatal
     (by decide) rfl⟩

/-- C8: an upload of a 0-byte file, a non-image content type, or a file
above the configured maximum is rejected with a ValidationError before
any job is created: the store is unchanged and a subsequent result poll
for the would-be id returns NotFound. -/
theorem upload_rejected_no_job (st : JobStore) (nid : JobId) (size : Nat)
    (ctype : String)
    (h : size = 0 ∨ jsStartsWith ctype "image/" = false ∨ maxImageSize < size)
    (hfresh : getJob st nid = none) :
    (uploadEndpoint st nid size ctype).1 = st ∧
    (uploadEndpoint st nid size ctype).2 =
      Except.error (UploadError.ValidationError "invalid upload") ∧
    getResult (uploadEndpoint st nid size ctype).1 nid =
      Except.error StoreError.NotFound := by
  have hv : validUpload size ctype = false := by
    rcases h with h | h | h
    · subst h
      simp [validUpload]
    · simp [validUpload, h]
    · have hle : ¬ size ≤ maxImageSize := by omega
      simp [validUpload, hle]
  refine ⟨?_, ?_, ?_⟩
  · simp [uploadEndpoint, hv]
  · simp [uploadEndpoint, hv]
  · simp [uploadEndpoint, hv, getResult, hfresh]

/-- Witness for C8 at an empty store and a 0-byte upload. -/
theorem upload_rejected_no_job_witness :
    (0 = 0 ∨ jsStartsWith "text/plain" "image/" = false ∨ maxImageSize < 0) ∧
    getJob emptyStore 0 = none ∧
    ((uploadEndpoint emptyStore 0 0 "text/plain").1 = emptyStore ∧
     (uploadEndpoint emptyStore 0 0 "text/plain").2 =
       Except.error (UploadError.ValidationError "invalid upload") ∧
     getResult (uploadEndpoint emptyStore 0 0 "text/plain").1 0 =
       Except.error StoreError.NotFound) :=
  ⟨Or.inl rfl, rfl,
   upload_rejected_no_job emptyStore 0 0 "text/plain" (Or.inl rfl) rfl⟩
